import Mathlib

/-!
Verification of the ExtensionIndex delegation layer
(`pandas/core/indexes/extension.py`).

The embedding models the TypedIndex/ExtensionIndex data model: a concrete
index class wrapping a fixed-dtype backing array, with a `name` label and an
object identity (`id`).  Operations are translated from the source file;
collaborators living outside that file (the backing-array primitives, the
generic `Index` constructor, `get_op_result_name`, `_find_common_type_compat`,
`Index.copy`, the base `Index.insert`) are modelled from the specification and
carry a doc comment saying so.  The embedding is pure: every structural
operation takes a fresh object identity and returns a new value, mirroring the
copy-construct style of the source.
-/

namespace PandasExtIdx

/-- Resolutions of numpy datetime64 / timedelta64 dtypes. -/
inductive TimeRes
  | s
  | ms
  | us
  | ns
deriving DecidableEq, Repr

/-- Scalar values stored in backing arrays.  Date/time values are held at the
canonical nanosecond resolution, as the pandas arrays do internally. -/
inductive Val
  | intV (n : Int)
  | strV (s : String)
  | timeV (t : Int)
  | durV (d : Int)
  | periodV (p : Int)
  | intervalV (lo hi : Int)
deriving DecidableEq, Repr

/-- The dtypes relevant to ExtensionIndex and its operands.  `m8 r` is the
numpy `datetime64[r]` dtype, `m8tz` the tz-aware extension dtype, `td64 r`
numpy `timedelta64[r]`.  A categorical dtype carries its categories. -/
inductive Dtype
  | int64
  | float64
  | object
  | m8 (res : TimeRes)
  | m8tz
  | td64 (res : TimeRes)
  | period
  | categorical (cats : List Val)
  | interval
deriving DecidableEq, Repr

/-- Whether a value is acceptable under a dtype without widening: this is the
validation the backing arrays apply on `insert`/`astype`.  The generic object
dtype accepts everything; fixed-width date/time dtypes accept only the
canonical nanosecond resolution; a categorical accepts only its categories. -/
def Val.hasDtype : Val → Dtype → Bool
  | _, .object => true
  | .intV _, .int64 => true
  | .intV _, .float64 => true
  | .timeV _, .m8 r => r == TimeRes.ns
  | .timeV _, .m8tz => true
  | .durV _, .td64 r => r == TimeRes.ns
  | .periodV _, .period => true
  | .intervalV _ _, .interval => true
  | v, .categorical cats => cats.contains v
  | _, _ => false

/-- `isinstance(dtype, np.dtype)`: the dtypes that are plain numpy dtypes
rather than pandas extension dtypes. -/
def Dtype.isNumpy : Dtype → Bool
  | .int64 | .float64 | .object | .m8 _ | .td64 _ => true
  | _ => false

/-- `dtype.kind == "M"`. -/
def Dtype.kindM : Dtype → Bool
  | .m8 _ | .m8tz => true
  | _ => false

/-- `is_object_dtype`. -/
def isObjectDtype (d : Dtype) : Bool := d == Dtype.object

/-- Date/time-like dtypes (datetime64, tz-aware datetime, timedelta64,
period), used by the backing-array cast rule. -/
def Dtype.isDatetimeLike : Dtype → Bool
  | .m8 _ | .m8tz | .td64 _ | .period => true
  | _ => false

/-- The dtypes actually carried by date/time-like index classes: pandas
indexes only ever hold the canonical nanosecond resolution. -/
def Dtype.isDatetimeLikeIndexDtype : Dtype → Bool
  | .m8 r => r == TimeRes.ns
  | .m8tz => true
  | .td64 r => r == TimeRes.ns
  | .period => true
  | _ => false

/-- The concrete index classes.  `base` is the generic `Index` base class;
`objectSub` stands for an object-dtype proper subclass of `Index` (the operand
kind singled out in the arithmetic deferral guard, GH#31109); the rest are the
concrete ExtensionIndex subclasses. -/
inductive IndexCls
  | base
  | objectSub
  | categoricalIndex
  | datetimeIndex
  | timedeltaIndex
  | periodIndex
  | intervalIndex
deriving DecidableEq, Repr

/-- `type(self).__name__`. -/
def IndexCls.clsName : IndexCls → String
  | .base => "Index"
  | .objectSub => "ObjectSubclassIndex"
  | .categoricalIndex => "CategoricalIndex"
  | .datetimeIndex => "DatetimeIndex"
  | .timedeltaIndex => "TimedeltaIndex"
  | .periodIndex => "PeriodIndex"
  | .intervalIndex => "IntervalIndex"

/-- Whether `getattr(self._data, opname)` succeeds for arithmetic operator
names: `Categorical` and `IntervalArray` lack the arithmetic dunders (the
`AttributeError` branch of `_make_wrapped_arith_op`); the datetime-like
backing arrays have them. -/
def IndexCls.dataHasArith : IndexCls → Bool
  | .categoricalIndex | .intervalIndex => false
  | _ => true

/-- An index value: concrete class tag, dtype and data of the backing array,
the `name` label, and the object identity used by the `is_` fast path. -/
structure PandasIndex where
  cls : IndexCls
  dtype : Dtype
  data : List Val
  name : Option String
  id : Nat
deriving DecidableEq, Repr

/-- The error values surfaced by this layer. -/
inductive PdErr
  | typeError (msg : String)
  | valueError (msg : String)
  | indexError (msg : String)
deriving DecidableEq, Repr

/-- A right-hand operand of a comparison/arithmetic dunder: another index, a
Series, a raw array, or a scalar. -/
inductive Operand
  | idx (x : PandasIndex)
  | series (dtype : Dtype) (data : List Val) (name : Option String)
  | arr (dtype : Dtype) (data : List Val)
  | scalar (v : Val)
deriving DecidableEq, Repr

/-- `_maybe_unwrap_index`: if the operand is an Index, take its `_data`. -/
def maybeUnwrapIndex : Operand → Operand
  | .idx x => Operand.arr x.dtype x.data
  | o => o

/-- The wrapper produced by `_make_wrapped_comparison_op`: unwrap a Series to
its values, unwrap an Index to its backing data, then invoke the backing
array's comparison method `f` directly. -/
def wrappedComparisonOp {β : Type} (f : Operand → β) (other : Operand) : β :=
  let o := match other with
    | .series d v _ => Operand.arr d v
    | o => o
  f (maybeUnwrapIndex o)

/-- Raw results a backing-array arithmetic dunder can return. -/
inductive ArithRaw
  | notImplemented
  | vals (dtype : Dtype) (data : List Val)
  | idxR (x : PandasIndex)
  | tup (fst snd : ArithRaw)
deriving DecidableEq, Repr

/-- The observable outcome of a wrapped arithmetic dunder. -/
inductive ArithResult
  | notImplemented
  | index (x : PandasIndex)
  | tup (fst snd : ArithResult)
  | raised (e : PdErr)
deriving DecidableEq, Repr

/-- The name carried by an operand, when it is an index or a Series. -/
def operandName : Operand → Option (Option String)
  | .idx y => some y.name
  | .series _ _ n => some n
  | _ => none

/-- Modelled from the spec: `get_op_result_name` (defined outside this file).
Name reconciliation: if both operands are named indexes/series and their names
agree, keep that name; if they disagree or either is unnamed or not an
index/series, the result name is unset. -/
def getOpResultName (self : PandasIndex) (other : Operand) : Option String :=
  match operandName other with
  | some oname => if self.name = oname then self.name else none
  | none => none

/-- Modelled from the spec: the class chosen by the generic `Index`
constructor for a given dtype (`Index.__new__` chooses the appropriate
subclass for the dtype; non-extension dtypes give the base class). -/
def clsForDtype : Dtype → IndexCls
  | .m8 _ => IndexCls.datetimeIndex
  | .m8tz => IndexCls.datetimeIndex
  | .td64 _ => IndexCls.timedeltaIndex
  | .period => IndexCls.periodIndex
  | .categorical _ => IndexCls.categoricalIndex
  | .interval => IndexCls.intervalIndex
  | _ => IndexCls.base

/-- Modelled from the spec: the generic `Index(values, dtype, name)`
constructor (defined outside this file), allocating a fresh object. -/
def mkIndex (dtype : Dtype) (data : List Val) (name : Option String)
    (fresh : Nat) : PandasIndex :=
  { cls := clsForDtype dtype, dtype := dtype, data := data, name := name, id := fresh }

/-- `_wrap_arithmetic_op`: pass `NotImplemented` through, wrap divmod pairs
recursively, promote a raw result to an Index, and set the reconciled name on
the result. -/
def wrapArithmeticOp (self : PandasIndex) (other : Operand) : ArithRaw → ArithResult
  | .notImplemented => ArithResult.notImplemented
  | .tup a b =>
      ArithResult.tup (wrapArithmeticOp self other a) (wrapArithmeticOp self other b)
  | .idxR x => ArithResult.index { x with name := getOpResultName self other }
  | .vals d v => ArithResult.index (mkIndex d v (getOpResultName self other) 0)

/-- The method produced by `_make_wrapped_arith_op`: first the deferral guard
(`other` an object-dtype Index proper subclass gives `NotImplemented` before
any unwrapping), then the `getattr(self._data, opname)` lookup (absence gives
the TypeError naming the concrete index class), then the backing operator `f`
on the unwrapped operand, wrapped by `_wrap_arithmetic_op`. -/
def wrappedArithOp (opname : String) (f : Operand → ArithRaw)
    (self : PandasIndex) (other : Operand) : ArithResult :=
  if (match other with
      | .idx y => isObjectDtype y.dtype && !(y.cls == IndexCls.base)
      | _ => false) then
    ArithResult.notImplemented
  else if self.cls.dataHasArith then
    wrapArithmeticOp self other (f (maybeUnwrapIndex other))
  else
    ArithResult.raised
      (PdErr.typeError
        ("cannot perform " ++ opname ++ " with this index type: " ++ self.cls.clsName))

/-- The arithmetic dunder names bound by `_make_wrapped_arith_op` in the
class body of `ExtensionIndex`. -/
def arithOpNames : List String :=
  ["__add__", "__sub__", "__radd__", "__rsub__", "__pow__", "__rpow__",
   "__mul__", "__rmul__", "__floordiv__", "__rfloordiv__", "__mod__",
   "__rmod__", "__divmod__", "__rdivmod__", "__truediv__", "__rtruediv__"]

/-- The comparison dunder names bound by `_make_wrapped_comparison_op`. -/
def comparisonOpNames : List String :=
  ["__eq__", "__ne__", "__lt__", "__gt__", "__le__", "__ge__"]

/-- `self.is_(other)`: the object-identity fast path. -/
def PandasIndex.isSame (x other : PandasIndex) : Bool := x.id == other.id

/-- The backing-array structural equality used by `equals`: same dtype and
same values. -/
def PandasIndex.dataEquals (x other : PandasIndex) : Bool :=
  x.dtype == other.dtype && x.data == other.data

/-- `ExtensionIndex.equals`: identity fast path, then the
`isinstance(other, type(self))` check (the concrete index classes are leaves,
so this is class equality), then backing-array equality. -/
def PandasIndex.equals (x other : PandasIndex) : Bool :=
  if x.isSame other then true
  else if !(other.cls == x.cls) then false
  else x.dataEquals other

/-- `ExtensionIndex._simple_new`: construct from a backing array of the
class-appropriate variant (the variant assertion is an internal invariant
preserved by every caller), allocating a fresh object. -/
def simpleNew (cls : IndexCls) (dtype : Dtype) (data : List Val)
    (name : Option String) (fresh : Nat) : PandasIndex :=
  { cls := cls, dtype := dtype, data := data, name := name, id := fresh }

/-- Modelled from the spec: `BackingArray.delete` (defined outside this file)
removes the element at a valid position and fails on an out-of-range one. -/
def backingDelete (data : List Val) (loc : Nat) : Except PdErr (List Val) :=
  if loc < data.length then Except.ok (data.eraseIdx loc)
  else Except.error (PdErr.indexError "loc out of bounds")

/-- `ExtensionIndex.delete`: delete on the backing array, rewrap with
`_simple_new` keeping the name. -/
def PandasIndex.delete (x : PandasIndex) (loc : Nat) (fresh : Nat) :
    Except PdErr PandasIndex := do
  let arr ← backingDelete x.data loc
  return simpleNew x.cls x.dtype arr x.name fresh

/-- Python `list.insert` position semantics: negative positions count from the
end (floored at 0), positions past the end are clipped to the length. -/
def clipLoc (len : Nat) (loc : Int) : Nat :=
  if loc < 0 then len - (-loc).toNat
  else min loc.toNat len

/-- Modelled from the spec: `BackingArray.insert` (defined outside this file)
validates the item against the array dtype — a ValueError/TypeError when the
item is not representable under it — and otherwise inserts with `list.insert`
position semantics. -/
def backingInsert (dtype : Dtype) (data : List Val) (loc : Int) (item : Val) :
    Except PdErr (List Val) :=
  if item.hasDtype dtype then
    Except.ok (data.insertIdx (clipLoc data.length loc) item)
  else Except.error (PdErr.typeError "invalid item for dtype")

/-- Modelled from the spec: `Index._find_common_type_compat` (defined outside
this file) — the minimal common dtype for the existing data and the new item,
the generic object fallback when the item does not fit the current dtype. -/
def findCommonTypeCompat (x : PandasIndex) (item : Val) : Dtype :=
  if item.hasDtype x.dtype then x.dtype else Dtype.object

/-- Modelled from the spec: `BackingArray.astype` (defined outside this file)
— a safe cast: casting date/time-like data to a differently-parameterized
date/time dtype fails (only the canonical nanosecond resolution is accepted),
and a cast fails when some value has no lossless representation under the
target dtype. -/
def backingAstype (src : Dtype) (data : List Val) (target : Dtype) :
    Except PdErr (List Val) :=
  if src.isDatetimeLike && target.kindM && !(target == Dtype.m8 TimeRes.ns) then
    Except.error (PdErr.typeError "cannot cast to a non-nanosecond datetime dtype")
  else if data.all (fun v => v.hasDtype target) then Except.ok data
  else Except.error (PdErr.typeError "cast failed")

/-- Modelled from the spec: `Index.copy` (defined outside this file) — a
shallow copy: same data, dtype and name, a new object. -/
def PandasIndex.copy (x : PandasIndex) (fresh : Nat) : PandasIndex :=
  { x with id := fresh }

/-- `ExtensionIndex.astype`: a no-op when the target dtype equals the current
one (`self` when `copy=False`, a shallow copy when `copy=True`); the guard
rejecting a cast of a numpy-dtyped index to a non-nanosecond datetime64
dtype; otherwise the backing-array cast wrapped by the generic constructor
with the name kept. -/
def PandasIndex.astype (x : PandasIndex) (dtype : Dtype) (copy : Bool)
    (fresh : Nat) : Except PdErr PandasIndex :=
  if x.dtype == dtype then
    if !copy then Except.ok x
    else Except.ok (x.copy fresh)
  else if x.dtype.isNumpy && dtype.isNumpy && dtype.kindM
      && !(dtype == Dtype.m8 TimeRes.ns) then
    Except.error (PdErr.typeError ("Cannot cast " ++ x.cls.clsName ++ " to dtype"))
  else do
    let newValues ← backingAstype x.dtype x.data dtype
    return mkIndex dtype newValues x.name fresh

/-- Modelled from the spec: the base `Index.insert` (defined outside this
file) applied to the cast copy produced by the widening fallback; under the
generic object dtype every item is acceptable and is placed with
`list.insert` position semantics. -/
def baseIndexInsert (x : PandasIndex) (loc : Int) (item : Val) (fresh : Nat) :
    Except PdErr PandasIndex :=
  if item.hasDtype x.dtype then
    Except.ok
      (simpleNew x.cls x.dtype (x.data.insertIdx (clipLoc x.data.length loc) item)
        x.name fresh)
  else Except.error (PdErr.typeError "cannot insert item")

/-- `ExtensionIndex.insert`: try the in-dtype insert on the backing array; on
a ValueError/TypeError compute the minimal common dtype, cast the whole index
to it and retry the insert on the cast copy.  In the failing case the common
dtype is the object fallback, whose index class is the generic base class, so
the retried insert is the base-class insert. -/
def PandasIndex.insert (x : PandasIndex) (loc : Int) (item : Val)
    (fresh : Nat) : Except PdErr PandasIndex :=
  match backingInsert x.dtype x.data loc item with
  | Except.ok result => Except.ok (simpleNew x.cls x.dtype result x.name fresh)
  | Except.error _ =>
    let dtype := findCommonTypeCompat x item
    match x.astype dtype true fresh with
    | Except.error e => Except.error e
    | Except.ok casted => baseIndexInsert casted loc item (fresh + 1)

/-- `ExtensionIndex.repeat`: reject a set `axis`, repeat the backing array
element-wise, rewrap with `_simple_new` keeping the name. -/
def PandasIndex.repeat (x : PandasIndex) (repeats : Nat) (axis : Option Nat)
    (fresh : Nat) : Except PdErr PandasIndex :=
  if !(axis == none) then
    Except.error (PdErr.valueError "repeat does not support the axis argument")
  else
    Except.ok
      (simpleNew x.cls x.dtype
        ((x.data.map (List.replicate repeats)).flatten) x.name fresh)

/-- The method branch of `inherit_from_data` (wrap=False): reject an
`inplace` keyword argument with a ValueError naming the index class before
delegating to the underlying array method `attr`. -/
def delegatedMethodCall {α : Type} (clsN : String)
    (attr : List Val → List String → Except PdErr α)
    (data : List Val) (kwargs : List String) : Except PdErr α :=
  if "inplace" ∈ kwargs then
    Except.error (PdErr.valueError ("cannot use inplace with " ++ clsN))
  else attr data kwargs

/-- The dtype-consistency invariant of a backing array: every stored value is
acceptable under the array dtype. -/
def wfData (x : PandasIndex) : Bool :=
  x.data.all (fun v => v.hasDtype x.dtype)

/-! ## Helper lemmas -/

theorem hasDtype_object (v : Val) : v.hasDtype Dtype.object = true := by
  cases v <;> rfl

theorem astype_ok_dtype (x : PandasIndex) (d : Dtype) (c : Bool) (fresh : Nat)
    (y : PandasIndex) (h : x.astype d c fresh = Except.ok y) : y.dtype = d := by
  unfold PandasIndex.astype at h
  by_cases hd : x.dtype = d
  · rw [if_pos (by simp [hd])] at h
    cases c with
    | false => simp at h; rw [← h]; exact hd
    | true => simp at h; rw [← h]; exact hd
  · rw [if_neg (by simp [hd])] at h
    by_cases hg : (x.dtype.isNumpy && d.isNumpy && d.kindM
        && !(d == Dtype.m8 TimeRes.ns)) = true
    · rw [if_pos (by simp [hg])] at h
      exact absurd h (by simp)
    · rw [if_neg (by simp [hg])] at h
      cases hb : backingAstype x.dtype x.data d with
      | error e => rw [hb] at h; simp [Except.bind] at h
      | ok vals =>
          rw [hb] at h
          simp [Except.bind, Except.pure] at h
          rw [← h]
          rfl

/-! ## Claim C1 -/

def c1x : PandasIndex :=
  { cls := IndexCls.datetimeIndex, dtype := Dtype.m8 TimeRes.ns,
    data := [Val.timeV 10, Val.timeV 20], name := none, id := 0 }

/-- Claim C1: for every TypedIndex and every item whose in-dtype insertion
fails, `insert` does not propagate the failure: it computes the minimal
common dtype via the common-dtype hook, casts the index to that dtype,
retries on the cast copy, and yields an index of length original + 1 holding
the item at the target position. -/
theorem insert_incompatible_falls_back (x : PandasIndex) (loc : Nat)
    (item : Val) (fresh : Nat) (hitem : item.hasDtype x.dtype = false)
    (hloc : loc ≤ x.data.length) :
    ∃ r, x.insert (loc : Int) item fresh = Except.ok r ∧
      r.dtype = findCommonTypeCompat x item ∧
      r.data.length = x.data.length + 1 ∧
      r.data[loc]? = some item := by
  have hobj : x.dtype ≠ Dtype.object := by
    intro h
    rw [h, hasDtype_object] at hitem
    exact Bool.noConfusion hitem
  have hcommon : findCommonTypeCompat x item = Dtype.object := by
    simp [findCommonTypeCompat, hitem]
  have hclip : clipLoc x.data.length (loc : Int) = loc := by
    simp [clipLoc, Nat.min_eq_left hloc]
  have hall : x.data.all (fun v => v.hasDtype Dtype.object) = true := by
    simp [hasDtype_object]
  have hastype : x.astype Dtype.object true fresh =
      Except.ok (mkIndex Dtype.object x.data x.name fresh) := by
    unfold PandasIndex.astype
    rw [if_neg (by simp [hobj])]
    rw [if_neg (by simp [Dtype.kindM])]
    simp only [backingAstype, Dtype.kindM, Bool.and_false, Bool.false_and,
      Bool.false_eq_true, if_false, hall, if_true]
    rfl
  have hrun : x.insert (loc : Int) item fresh =
      Except.ok (simpleNew IndexCls.base Dtype.object
        (x.data.insertIdx loc item) x.name (fresh + 1)) := by
    unfold PandasIndex.insert
    rw [show backingInsert x.dtype x.data (loc : Int) item =
        Except.error (PdErr.typeError "invalid item for dtype") from by
      simp [backingInsert, hitem]]
    simp only [hcommon, hastype]
    unfold baseIndexInsert
    rw [if_pos (by simp [mkIndex, hasDtype_object])]
    simp [mkIndex, clsForDtype, simpleNew, hclip]
  refine ⟨simpleNew IndexCls.base Dtype.object (x.data.insertIdx loc item)
    x.name (fresh + 1), hrun, hcommon.symm, ?_, ?_⟩
  · exact List.length_insertIdx loc x.data hloc
  · have hlt : loc < (x.data.insertIdx loc item).length := by
      rw [List.length_insertIdx loc x.data hloc]
      omega
    show (List.insertIdx loc item x.data)[loc]? = some item
    rw [List.getElem?_eq_getElem hlt]
    rw [List.getElem_insertIdx_self x.data item loc hloc]

/-- Witness for C1 at a concrete input: inserting a string into a
datetime-dtyped index of length 2. -/
theorem insert_incompatible_falls_back_witness :
    ∃ r, c1x.insert ((1 : Nat) : Int) (Val.strV "a") 5 = Except.ok r ∧
      r.dtype = findCommonTypeCompat c1x (Val.strV "a") ∧
      r.data.length = c1x.data.length + 1 ∧
      r.data[(1 : Nat)]? = some (Val.strV "a") :=
  insert_incompatible_falls_back c1x 1 (Val.strV "a") 5 (by decide) (by decide)

/-! ## Claim C2 -/

def c2x : PandasIndex :=
  { cls := IndexCls.datetimeIndex, dtype := Dtype.m8 TimeRes.ns,
    data := [Val.timeV 1], name := none, id := 0 }

def c2y : PandasIndex :=
  { cls := IndexCls.objectSub, dtype := Dtype.object,
    data := [Val.intV 1], name := none, id := 1 }

/-- Claim C2: every arithmetic dunder returns `NotImplemented` when the
right-hand operand is an object-dtype Index proper subclass, before the
backing operator is consulted (the result is the same for every backing
operator `f`); every comparison dunder performs no such deferral — it unwraps
the operand and invokes the backing comparison `g` directly. -/
theorem arith_defers_object_subclass_cmp_invokes_directly {β : Type}
    (opname : String) (f : Operand → ArithRaw) (g : Operand → β)
    (x y : PandasIndex) (_hop : opname ∈ arithOpNames)
    (hdt : y.dtype = Dtype.object) (hcls : y.cls ≠ IndexCls.base) :
    wrappedArithOp opname f x (Operand.idx y) = ArithResult.notImplemented ∧
    wrappedComparisonOp g (Operand.idx y) = g (Operand.arr y.dtype y.data) := by
  constructor
  · have h1 : isObjectDtype y.dtype = true := by simp [isObjectDtype, hdt]
    have h2 : (y.cls == IndexCls.base) = false := by simp [hcls]
    simp [wrappedArithOp, h1, h2]
  · rfl

/-- Witness for C2 at a concrete input: a `__add__` against an object-dtype
Index subclass defers; the `__eq__` wrapper hands the unwrapped data to the
backing comparison. -/
theorem arith_defers_object_subclass_cmp_witness :
    wrappedArithOp "__add__" (fun _ => ArithRaw.notImplemented) c2x
      (Operand.idx c2y) = ArithResult.notImplemented ∧
    wrappedComparisonOp (fun o => o) (Operand.idx c2y) =
      Operand.arr c2y.dtype c2y.data :=
  arith_defers_object_subclass_cmp_invokes_directly "__add__"
    (fun _ => ArithRaw.notImplemented) (fun o => o) c2x c2y
    (by decide) (by decide) (by decide)

/-! ## Claim C3 -/

def c3self : PandasIndex :=
  { cls := IndexCls.datetimeIndex, dtype := Dtype.m8 TimeRes.ns,
    data := [Val.timeV 1], name := some "x", id := 0 }

def c3other : PandasIndex :=
  { cls := IndexCls.datetimeIndex, dtype := Dtype.m8 TimeRes.ns,
    data := [Val.timeV 2], name := some "x", id := 1 }

/-- Claim C3: whenever the arithmetic wrap produces an Index result, its name
follows the reconciliation rule: both operands named indexes/series with
agreeing names keep the name; a disagreement, an unnamed operand, or a
non-index/series operand leaves the result unnamed. -/
theorem arith_result_name_reconciliation (self : PandasIndex)
    (other : Operand) (raw : ArithRaw) (r : PandasIndex)
    (h : wrapArithmeticOp self other raw = ArithResult.index r) :
    (∀ n, self.name = some n → operandName other = some (some n) →
      r.name = some n) ∧
    ((∀ n, ¬(self.name = some n ∧ operandName other = some (some n))) →
      r.name = none) := by
  have hname : r.name = getOpResultName self other := by
    cases raw with
    | notImplemented => simp [wrapArithmeticOp] at h
    | tup a b => simp [wrapArithmeticOp] at h
    | idxR z =>
        rw [show wrapArithmeticOp self other (ArithRaw.idxR z) =
            ArithResult.index { z with name := getOpResultName self other }
          from rfl] at h
        injection h with h2
        rw [← h2]
    | vals d v =>
        rw [show wrapArithmeticOp self other (ArithRaw.vals d v) =
            ArithResult.index (mkIndex d v (getOpResultName self other) 0)
          from rfl] at h
        injection h with h2
        rw [← h2]
        rfl
  constructor
  · intro n hs ho
    rw [hname]
    simp [getOpResultName, ho, hs]
  · intro hno
    rw [hname]
    unfold getOpResultName
    cases hother : operandName other with
    | none => rfl
    | some oname =>
        show (if self.name = oname then self.name else none) = none
        by_cases hsn : self.name = oname
        · rw [if_pos hsn]
          cases hself : self.name with
          | none => rfl
          | some n =>
              have hcontra : operandName other = some (some n) := by
                rw [hother, ← hsn, hself]
              exact absurd ⟨hself, hcontra⟩ (hno n)
        · rw [if_neg hsn]

/-- Witness for C3 at a concrete input: two indexes both named `x` give a
wrapped result named `x`. -/
theorem arith_result_name_reconciliation_witness :
    (mkIndex (Dtype.td64 TimeRes.ns) [Val.durV 1] (some "x") 0).name =
      some "x" :=
  (arith_result_name_reconciliation c3self (Operand.idx c3other)
      (ArithRaw.vals (Dtype.td64 TimeRes.ns) [Val.durV 1])
      (mkIndex (Dtype.td64 TimeRes.ns) [Val.durV 1] (some "x") 0)
      (by decide)).1 "x" (by decide) (by decide)

/-! ## Claim C4 -/

def c4x : PandasIndex :=
  { cls := IndexCls.datetimeIndex, dtype := Dtype.m8 TimeRes.ns,
    data := [Val.timeV 3], name := none, id := 0 }

def c4y : PandasIndex :=
  { cls := IndexCls.timedeltaIndex, dtype := Dtype.td64 TimeRes.ns,
    data := [Val.durV 3], name := none, id := 1 }

/-- Claim C4: `equals` is true on the identity fast path without consulting
the data; it is false for a distinct object of a different concrete index
class whatever the data; otherwise it is exactly the backing-array structural
equality. -/
theorem equals_identity_subtype_data (x y : PandasIndex) :
    x.equals x = true ∧
    (x.id = y.id → x.equals y = true) ∧
    (x.id ≠ y.id → x.cls ≠ y.cls → x.equals y = false) ∧
    (x.id ≠ y.id → x.cls = y.cls → x.equals y = x.dataEquals y) := by
  refine ⟨?_, ?_, ?_, ?_⟩
  · simp [PandasIndex.equals, PandasIndex.isSame]
  · intro h
    simp [PandasIndex.equals, PandasIndex.isSame, h]
  · intro hid hcls
    have h1 : (x.id == y.id) = false := by simp [hid]
    have h2 : (y.cls == x.cls) = false := by
      simp [beq_eq_false_iff_ne]
      exact fun h => hcls h.symm
    simp [PandasIndex.equals, PandasIndex.isSame, h1, h2]
  · intro hid hcls
    have h1 : (x.id == y.id) = false := by simp [hid]
    simp [PandasIndex.equals, PandasIndex.isSame, h1, hcls]

/-- Witness for C4 at concrete inputs: an index equals itself; a
datetime-class index never equals a timedelta-class one. -/
theorem equals_identity_subtype_data_witness :
    c4x.equals c4x = true ∧ c4x.equals c4y = false :=
  ⟨(equals_identity_subtype_data c4x c4y).1,
   (equals_identity_subtype_data c4x c4y).2.2.1 (by decide) (by decide)⟩

/-! ## Claim C5 -/

def c5x : PandasIndex :=
  { cls := IndexCls.periodIndex, dtype := Dtype.period,
    data := [Val.periodV 2], name := some "p", id := 3 }

/-- Claim C5: `astype` to the current dtype is a no-op — `self` when
`copy=False`, a shallow copy (same dtype, data and name) when `copy=True` —
and `astype(d)` followed by `astype(d, copy=False)` is idempotent: the second
call returns the first call's result itself. -/
theorem astype_same_dtype_noop_idempotent (x : PandasIndex) (f1 f2 : Nat) :
    x.astype x.dtype false f1 = Except.ok x ∧
    x.astype x.dtype true f1 = Except.ok (x.copy f1) ∧
    (x.copy f1).dtype = x.dtype ∧ (x.copy f1).data = x.data ∧
    (x.copy f1).name = x.name ∧
    (∀ d y, x.astype d true f1 = Except.ok y →
      y.astype d false f2 = Except.ok y) := by
  refine ⟨?_, ?_, rfl, rfl, rfl, ?_⟩
  · simp [PandasIndex.astype]
  · simp [PandasIndex.astype]
  · intro d y h
    have hdt : y.dtype = d := astype_ok_dtype x d true f1 y h
    simp [PandasIndex.astype, hdt]

/-- Witness for C5 at a concrete input: a same-dtype no-op on a period index,
and the idempotence of a cast to the object dtype. -/
theorem astype_same_dtype_noop_idempotent_witness :
    c5x.astype c5x.dtype false 9 = Except.ok c5x ∧
    (mkIndex Dtype.object [Val.periodV 2] (some "p") 9).astype Dtype.object
        false 11 =
      Except.ok (mkIndex Dtype.object [Val.periodV 2] (some "p") 9) :=
  ⟨(astype_same_dtype_noop_idempotent c5x 9 11).1,
   (astype_same_dtype_noop_idempotent c5x 9 11).2.2.2.2.2 Dtype.object
     (mkIndex Dtype.object [Val.periodV 2] (some "p") 9) (by rfl)⟩

/-! ## Claim C6 -/

def c6x : PandasIndex :=
  { cls := IndexCls.datetimeIndex, dtype := Dtype.m8tz,
    data := [Val.timeV 4], name := none, id := 0 }

/-- Claim C6: casting a date/time-like index to a datetime64 dtype of any
resolution other than the canonical nanosecond one fails with a type error
instead of performing the cast. -/
theorem astype_datetimelike_non_nano_raises (x : PandasIndex) (r : TimeRes)
    (c : Bool) (fresh : Nat)
    (hx : x.dtype.isDatetimeLikeIndexDtype = true) (hr : r ≠ TimeRes.ns) :
    ∃ msg, x.astype (Dtype.m8 r) c fresh =
      Except.error (PdErr.typeError msg) := by
  have hrb : (Dtype.m8 r == Dtype.m8 TimeRes.ns) = false := by
    simp [beq_eq_false_iff_ne, hr]
  cases hdt : x.dtype with
  | m8 r0 =>
      have hr0 : r0 = TimeRes.ns := by
        rw [hdt] at hx
        unfold Dtype.isDatetimeLikeIndexDtype at hx
        exact beq_iff_eq.mp hx
      subst hr0
      refine ⟨"Cannot cast " ++ x.cls.clsName ++ " to dtype", ?_⟩
      unfold PandasIndex.astype
      rw [hdt]
      rw [if_neg (by simp [Ne.symm hr])]
      rw [if_pos (by simp [Dtype.isNumpy, Dtype.kindM, hrb])]
  | m8tz =>
      refine ⟨"cannot cast to a non-nanosecond datetime dtype", ?_⟩
      unfold PandasIndex.astype
      rw [hdt]
      rw [if_neg (by simp)]
      rw [if_neg (by simp [Dtype.isNumpy])]
      simp only [backingAstype, Dtype.isDatetimeLike, Dtype.kindM, hrb,
        Bool.not_false, Bool.and_true, Bool.true_and, if_true]
      rfl
  | td64 r0 =>
      have hr0 : r0 = TimeRes.ns := by
        rw [hdt] at hx
        unfold Dtype.isDatetimeLikeIndexDtype at hx
        exact beq_iff_eq.mp hx
      subst hr0
      refine ⟨"Cannot cast " ++ x.cls.clsName ++ " to dtype", ?_⟩
      unfold PandasIndex.astype
      rw [hdt]
      rw [if_neg (by simp)]
      rw [if_pos (by simp [Dtype.isNumpy, Dtype.kindM, hrb])]
  | period =>
      refine ⟨"cannot cast to a non-nanosecond datetime dtype", ?_⟩
      unfold PandasIndex.astype
      rw [hdt]
      rw [if_neg (by simp)]
      rw [if_neg (by simp [Dtype.isNumpy])]
      simp only [backingAstype, Dtype.isDatetimeLike, Dtype.kindM, hrb,
        Bool.not_false, Bool.and_true, Bool.true_and, if_true]
      rfl
  | int64 => rw [hdt] at hx; simp [Dtype.isDatetimeLikeIndexDtype] at hx
  | float64 => rw [hdt] at hx; simp [Dtype.isDatetimeLikeIndexDtype] at hx
  | object => rw [hdt] at hx; simp [Dtype.isDatetimeLikeIndexDtype] at hx
  | categorical cats =>
      rw [hdt] at hx; simp [Dtype.isDatetimeLikeIndexDtype] at hx
  | interval => rw [hdt] at hx; simp [Dtype.isDatetimeLikeIndexDtype] at hx

/-- Witness for C6 at a concrete input: a tz-aware datetime index cast to
`datetime64[s]` fails. -/
theorem astype_datetimelike_non_nano_raises_witness :
    ∃ msg, c6x.astype (Dtype.m8 TimeRes.s) true 7 =
      Except.error (PdErr.typeError msg) :=
  astype_datetimelike_non_nano_raises c6x TimeRes.s true 7
    (by decide) (by decide)

/-! ## Claim C7 -/

def c7cat : PandasIndex :=
  { cls := IndexCls.categoricalIndex, dtype := Dtype.categorical [Val.intV 1],
    data := [Val.intV 1], name := none, id := 0 }

def c7obj : PandasIndex :=
  { cls := IndexCls.objectSub, dtype := Dtype.object,
    data := [Val.intV 1], name := none, id := 1 }

/-- Counterexample to C7 as stated: a categorical index (whose backing array
lacks arithmetic) still defers with `NotImplemented` when the right-hand
operand is an object-dtype Index proper subclass — the deferral guard runs
before the missing-operator check, so the operation does not fail there. -/
theorem arith_missing_op_defer_counterexample :
    wrappedArithOp "__add__" (fun _ => ArithRaw.notImplemented) c7cat
      (Operand.idx c7obj) = ArithResult.notImplemented := by decide

/-- Claim C7 (amended): provided the right-hand operand is not an
object-dtype Index proper subclass (for which the deferral guard returns
`NotImplemented` first), an arithmetic operator on an index whose backing
array lacks that operator fails with the type error naming the concrete
index class. -/
theorem arith_missing_op_raises (opname : String) (f : Operand → ArithRaw)
    (x : PandasIndex) (other : Operand) (_hop : opname ∈ arithOpNames)
    (hnoarith : x.cls.dataHasArith = false)
    (hother : ∀ y, other = Operand.idx y →
      isObjectDtype y.dtype = false ∨ y.cls = IndexCls.base) :
    wrappedArithOp opname f x other =
      ArithResult.raised (PdErr.typeError
        ("cannot perform " ++ opname ++ " with this index type: "
          ++ x.cls.clsName)) := by
  cases other with
  | idx y =>
      rcases hother y rfl with h | h
      · simp [wrappedArithOp, h, hnoarith]
      · simp [wrappedArithOp, h, hnoarith]
  | series d v n => simp [wrappedArithOp, hnoarith]
  | arr d v => simp [wrappedArithOp, hnoarith]
  | scalar v => simp [wrappedArithOp, hnoarith]

/-- Witness for the amended C7 at a concrete input: `__mul__` on a
categorical index against a scalar raises the type error naming
`CategoricalIndex`. -/
theorem arith_missing_op_raises_witness :
    wrappedArithOp "__mul__" (fun _ => ArithRaw.notImplemented) c7cat
      (Operand.scalar (Val.intV 2)) =
      ArithResult.raised (PdErr.typeError
        ("cannot perform " ++ "__mul__" ++ " with this index type: "
          ++ c7cat.cls.clsName)) :=
  arith_missing_op_raises "__mul__" (fun _ => ArithRaw.notImplemented) c7cat
    (Operand.scalar (Val.intV 2)) (by decide) (by decide)
    (by intro y hy; cases hy)

/-! ## Claim C8 -/

theorem insertIdx_get_eraseIdx {α : Type} (l : List α) (i : Nat)
    (h : i < l.length) :
    (l.eraseIdx i).insertIdx i (l.get ⟨i, h⟩) = l := by
  induction l generalizing i with
  | nil => exact absurd h (by simp)
  | cons a t ih =>
      cases i with
      | zero => rfl
      | succ n =>
          have hn : n < t.length := by simpa using h
          show a :: (t.eraseIdx n).insertIdx n (t.get ⟨n, hn⟩) = a :: t
          rw [ih n hn]

def c8x : PandasIndex :=
  { cls := IndexCls.datetimeIndex, dtype := Dtype.m8 TimeRes.ns,
    data := [Val.timeV 1, Val.timeV 2], name := some "d", id := 0 }

/-- Claim C8: on a dtype-consistent index, deleting the element at an
in-range position and re-inserting the original element at that position
yields an index `equals`-equal to the original. -/
theorem delete_insert_roundtrip (x : PandasIndex) (loc : Nat) (f1 f2 : Nat)
    (hwf : wfData x = true) (hloc : loc < x.data.length) :
    ∃ y z, x.delete loc f1 = Except.ok y ∧
      y.insert (loc : Int) (x.data.get ⟨loc, hloc⟩) f2 = Except.ok z ∧
      z.equals x = true := by
  have hdel : x.delete loc f1 =
      Except.ok (simpleNew x.cls x.dtype (x.data.eraseIdx loc) x.name f1) := by
    simp [PandasIndex.delete, backingDelete, hloc, Except.bind]
  have hitem : (getElem x.data loc hloc).hasDtype x.dtype = true := by
    have hwf2 : x.data.all (fun v => v.hasDtype x.dtype) = true := hwf
    exact List.all_eq_true.mp hwf2 _ (List.getElem_mem hloc)
  have hlen : (x.data.eraseIdx loc).length + 1 = x.data.length :=
    List.length_eraseIdx_add_one hloc
  have hle : loc ≤ (x.data.eraseIdx loc).length := by omega
  have hclip : clipLoc (x.data.eraseIdx loc).length (loc : Int) = loc := by
    simp [clipLoc, Nat.min_eq_left hle]
  have hins : (simpleNew x.cls x.dtype (x.data.eraseIdx loc) x.name f1).insert
      (loc : Int) (x.data.get ⟨loc, hloc⟩) f2 =
      Except.ok (simpleNew x.cls x.dtype x.data x.name f2) := by
    unfold PandasIndex.insert
    simp only [simpleNew]
    rw [show backingInsert x.dtype (x.data.eraseIdx loc) (loc : Int)
        (x.data.get ⟨loc, hloc⟩) =
        Except.ok (x.data.eraseIdx loc |>.insertIdx loc
          (x.data.get ⟨loc, hloc⟩)) from by
      simp [backingInsert, hitem, hclip]]
    rw [insertIdx_get_eraseIdx x.data loc hloc]
  have heq : (simpleNew x.cls x.dtype x.data x.name f2).equals x = true := by
    by_cases hid : f2 = x.id <;>
      simp [PandasIndex.equals, PandasIndex.isSame, PandasIndex.dataEquals,
        simpleNew, hid]
  exact ⟨_, _, hdel, hins, heq⟩

/-- Witness for C8 at a concrete input: delete position 1 of a length-2
datetime index and re-insert the original element there. -/
theorem delete_insert_roundtrip_witness :
    ∃ y z, c8x.delete 1 3 = Except.ok y ∧
      y.insert ((1 : Nat) : Int) (c8x.data.get ⟨1, by decide⟩) 4 =
        Except.ok z ∧
      z.equals c8x = true :=
  delete_insert_roundtrip c8x 1 3 4 (by decide) (by decide)

/-! ## Claim C9 -/

def c9x : PandasIndex :=
  { cls := IndexCls.datetimeIndex, dtype := Dtype.m8 TimeRes.ns,
    data := [Val.timeV 5], name := some "a", id := 7 }

/-- Counterexample to C9 as stated: `astype` to the current dtype with
`copy=False` returns the original object itself (same identity, the supplied
fresh identity 99 unused), not a new instance. -/
theorem astype_noop_same_object_counterexample :
    c9x.astype (Dtype.m8 TimeRes.ns) false 99 = Except.ok c9x ∧
    c9x.id ≠ 99 := by
  exact ⟨rfl, by decide⟩

/-- Claim C9 (amended): `delete`, `insert` and `repeat` always return a new
index instance, and `astype` does except in the same-dtype `copy=False`
no-op, which returns the original object itself; the embedding is pure, so
the original index is unchanged in every case. -/
theorem structural_ops_return_new_instance (x : PandasIndex) (loc : Nat)
    (li : Int) (item : Val) (reps : Nat) (d : Dtype) (c : Bool) (fresh : Nat)
    (hf : x.id < fresh) :
    (∀ y, x.delete loc fresh = Except.ok y → y.id ≠ x.id) ∧
    (∀ y, x.insert li item fresh = Except.ok y → y.id ≠ x.id) ∧
    (∀ y, x.repeat reps none fresh = Except.ok y → y.id ≠ x.id) ∧
    (∀ y, ¬(d = x.dtype ∧ c = false) → x.astype d c fresh = Except.ok y →
      y.id ≠ x.id) := by
  have hastype : ∀ y, ¬(d = x.dtype ∧ c = false) →
      x.astype d c fresh = Except.ok y → y.id ≠ x.id := by
    intro y hne h
    by_cases hd : x.dtype = d
    · have hc : c = true := by
        cases c with
        | true => rfl
        | false => exact absurd ⟨hd.symm, rfl⟩ hne
      subst hc
      simp [PandasIndex.astype, hd] at h
      rw [← h]
      simp [PandasIndex.copy]
      omega
    · unfold PandasIndex.astype at h
      rw [if_neg (by simp [hd])] at h
      by_cases hg : (x.dtype.isNumpy && d.isNumpy && d.kindM
          && !(d == Dtype.m8 TimeRes.ns)) = true
      · rw [if_pos (by simp [hg])] at h
        exact absurd h (by simp)
      · rw [if_neg (by simp [hg])] at h
        cases hb : backingAstype x.dtype x.data d with
        | error e => rw [hb] at h; simp [Except.bind] at h
        | ok vals =>
            rw [hb] at h
            have h2 : Except.ok (mkIndex d vals x.name fresh) =
                Except.ok y := h
            injection h2 with h3
            rw [← h3]
            simp [mkIndex]
            omega
  refine ⟨?_, ?_, ?_, hastype⟩
  · intro y h
    unfold PandasIndex.delete backingDelete at h
    by_cases hl : loc < x.data.length
    · rw [if_pos hl] at h
      have h2 : Except.ok (simpleNew x.cls x.dtype (x.data.eraseIdx loc)
          x.name fresh) = Except.ok y := h
      injection h2 with h3
      rw [← h3]
      simp [simpleNew]
      omega
    · rw [if_neg hl] at h
      have h2 : (Except.error (PdErr.indexError "loc out of bounds") :
          Except PdErr PandasIndex) = Except.ok y := h
      exact absurd h2 (by simp)
  · intro y h
    unfold PandasIndex.insert at h
    cases hb : backingInsert x.dtype x.data li item with
    | ok res =>
        rw [hb] at h
        simp at h
        rw [← h]
        simp [simpleNew]
        omega
    | error e =>
        rw [hb] at h
        simp only at h
        cases ha : x.astype (findCommonTypeCompat x item) true fresh with
        | error e2 => rw [ha] at h; simp at h
        | ok casted =>
            rw [ha] at h
            unfold baseIndexInsert at h
            have h2 : (if item.hasDtype casted.dtype = true then
                Except.ok (simpleNew casted.cls casted.dtype
                  (List.insertIdx (clipLoc casted.data.length li) item
                    casted.data) casted.name (fresh + 1))
              else Except.error (PdErr.typeError "cannot insert item")) =
                Except.ok y := h
            by_cases hc2 : item.hasDtype casted.dtype = true
            · rw [if_pos hc2] at h2
              injection h2 with h3
              rw [← h3]
              simp [simpleNew]
              omega
            · rw [if_neg hc2] at h2
              exact absurd h2 (by simp)
  · intro y h
    simp [PandasIndex.repeat] at h
    rw [← h]
    simp [simpleNew]
    omega

/-- Witness for the amended C9 at a concrete input: deleting position 0 with
fresh identity 8 returns an instance distinct from the original. -/
theorem structural_ops_return_new_instance_witness :
    (simpleNew IndexCls.datetimeIndex (Dtype.m8 TimeRes.ns) [] (some "a")
      8).id ≠ c9x.id :=
  (structural_ops_return_new_instance c9x 0 0 (Val.timeV 1) 1 Dtype.object
      true 8 (by decide)).1
    (simpleNew IndexCls.datetimeIndex (Dtype.m8 TimeRes.ns) [] (some "a") 8)
    (by rfl)

/-! ## Claim C10 -/

/-- Claim C10: a delegated method called with an `inplace` keyword argument
raises the ValueError naming the index class, whatever the underlying array
method would do — the underlying method is never consulted. -/
theorem delegated_inplace_raises {α : Type} (clsN : String)
    (attr : List Val → List String → Except PdErr α)
    (data : List Val) (kwargs : List String) (h : "inplace" ∈ kwargs) :
    delegatedMethodCall clsN attr data kwargs =
      Except.error (PdErr.valueError ("cannot use inplace with " ++ clsN)) := by
  simp [delegatedMethodCall, h]

/-- Witness for C10 at a concrete input. -/
theorem delegated_inplace_raises_witness :
    delegatedMethodCall "DatetimeIndex" (fun d _ => Except.ok d.length)
      [Val.timeV 1] ["inplace"] =
      Except.error (PdErr.valueError
        ("cannot use inplace with " ++ "DatetimeIndex")) :=
  delegated_inplace_raises "DatetimeIndex" (fun d _ => Except.ok d.length)
    [Val.timeV 1] ["inplace"] (by decide)

end PandasExtIdx
